import Mathlib

/-
Verification development for ProjectBuilder.py (APPN_GenricFileStorage).

The source is a single Python script that provisions a folder hierarchy for a
multi-node / multi-project / multi-site field-data program, validates each
field-log ledger row (types, date, temporal bounds, sensor membership, run
count, site resolution, integrity checksum) and, on success, creates the
folders for the row and writes the recomputed checksum back into the ledger.

The embedding below follows the source function by function:
  - `_sitenamemaker`  (ProjectBuilder.py, lines 447-477)
  - `Rowchecker`      (lines 480-590)
  - `Sitebuilder`     (lines 85-154)
  - `projBuilder`     (lines 156-239)
  - `NodeChecker`     (lines 242-297)
  - `_df_col_check`   (lines 385-444)  — on a generic column-labelled table
  - `main`'s loops    (lines 30-82)    — as `rowLoop` / `projLoop` / `nodeLoop` / `mainRun`

Modelling conventions:
  - Python runtime values that reach a pandas row cell are modelled by `PyVal`
    carrying an exact runtime-type tag, because the source uses exact
    `type(x) == int` / `type(x) == str` tests (lines 538-545).  Booleans and
    numpy fixed-width integers are distinct tags: `type(True) == int` and
    `type(np.int64(1)) == int` are both False in Python.
  - YAML values for a site's `ControlledEnvironment` are modelled by `YVal`.
    Python's `v in [True, False]` uses `==`, under which the integers `0` and
    `1` compare equal to `False` and `True`; `YVal.inTrueFalseList` reproduces
    that.
  - Timestamps are seconds (as `Int`); `pd.Timestamp(f"{y}-{m}-{d}")` is
    modelled by a Gregorian validity test (`validDate`) plus a
    days-from-civil conversion (`epochSecs`).  The year range is restricted to
    1678..2261, inside the representable range of `pd.Timestamp`.
  - `pd.util.hash_pandas_object(row.drop("CheckSum")).sum()` is an external
    library hash; it is an abstract parameter `h : HashFn` applied to the
    tuple of the row's non-checksum fields.  The source then reduces it
    `% 100000000` and stores it as a float; stored checksums are modelled as
    `Option Nat` (`none` = NaN).
  - Filesystem and git effects are a `State`: `pymkdir` is create-if-absent
    (line 592), `touchFile` models `pathlib.Path(...).touch()`, `writeCsv`
    models `DataFrame.to_csv`, `gitAdd` models `repo.git.add` plus the
    `gitmod` flag.  `GitPull` / `GitChanged` / `fileInRepo` only query or
    sync the external git repository and are outside the modelled state.
  - On a checksum mismatch the source prints a warning and executes
    `breakpoint()` (line 531); `sys.exit()` is commented out, so when
    execution resumes the function falls through with `check` still holding
    the recomputed value.  The model records this with the `conflict` flag of
    `RowOk` and otherwise continues exactly like the source.
-/

set_option maxRecDepth 8000

namespace ProjectBuilder

/-- Exact-runtime-type tagged Python value, as found in a pandas row cell. -/
inductive PyVal where
  | pyInt (n : Int)
  | pyBool (b : Bool)
  | npInt (n : Int)
  | pyStr (s : String)
  | npStr (s : String)
deriving DecidableEq

/-- Python `type(v) == int` (exact type: `bool` and `np.int64` fail). -/
def PyVal.typeIsInt : PyVal → Bool
  | .pyInt _ => true
  | _ => false

/-- Python `type(v) == str` (exact type: `np.str_` fails). -/
def PyVal.typeIsStr : PyVal → Bool
  | .pyStr _ => true
  | _ => false

/-- Integer value denoted by the cell (used only after the exact-type check). -/
def PyVal.toInt : PyVal → Int
  | .pyInt n => n
  | .pyBool b => if b then 1 else 0
  | .npInt n => n
  | _ => 0

/-- String value denoted by the cell (used only after the exact-type check). -/
def PyVal.toStr : PyVal → String
  | .pyStr s => s
  | .npStr s => s
  | _ => ""

/-- Python `v == t` for a cell against a `str`. -/
def PyVal.pyEqStr : PyVal → String → Bool
  | .pyStr s, t => s == t
  | .npStr s, t => s == t
  | _, _ => false

/-- Python `v == n` for a cell against an `int` (`True == 1`, `False == 0`). -/
def PyVal.pyEqInt : PyVal → Int → Bool
  | .pyInt n, m => n == m
  | .npInt n, m => n == m
  | .pyBool b, m => (if b then (1 : Int) else 0) == m
  | _, _ => false

/-- Value of a YAML scalar field (used for `ControlledEnvironment`). -/
inductive YVal where
  | ynull
  | ybool (b : Bool)
  | yint (n : Int)
  | ystr (s : String)
deriving DecidableEq

/-- Python `v in [True, False]`: membership by `==`, so `0` and `1` qualify. -/
def YVal.inTrueFalseList : YVal → Bool
  | .ybool _ => true
  | .yint n => n == 0 || n == 1
  | _ => false

/-- Python truthiness of the value, for `elif site["ControlledEnvironment"]:`. -/
def YVal.truthy : YVal → Bool
  | .ynull => false
  | .ybool b => b
  | .yint n => !(n == 0)
  | .ystr s => !(s == "")

/-- A site record from a project's `ProjectSummary.yaml`; only the fields the
source reads (`name`, `year`, `ControlledEnvironment`) are modelled. -/
structure Site where
  name : String
  year : Int
  ControlledEnvironment : YVal
deriving DecidableEq

/-- Contents of a project's `ProjectSummary.yaml` that the source reads. -/
structure ProjInfo where
  sites : List Site
deriving DecidableEq

/-- `_sitenamemaker` (lines 447-477): canonical site folder name.
`f"{site['year']}{site['name']}"`, then `_C` / `_F` by the controlled
environment flag; raises `ValueError` when the flag fails the
`in [True, False]` membership test. -/
def _sitenamemaker (site : Site) : Except String String :=
  let sitename := toString site.year ++ site.name
  if site.ControlledEnvironment = YVal.ynull then Except.ok sitename
  else if site.ControlledEnvironment.inTrueFalseList = false then
    Except.error ("Site: " ++ site.name ++ " has an invalid ControlledEnvironment: Must be True, False or null.")
  else if site.ControlledEnvironment.truthy then Except.ok (sitename ++ "_C")
  else Except.ok (sitename ++ "_F")

/-- One row of a project's `FieldLog.csv`, cells in source column order
`Year, Month, Day, Sensor, Technician, Runs, Site, MakeNotesFile, CheckSum`.
`CheckSum` is `none` for NaN, `some v` for a stored (integral) checksum. -/
structure FieldRow where
  Year : PyVal
  Month : PyVal
  Day : PyVal
  Sensor : PyVal
  Technician : PyVal
  Runs : PyVal
  Site : PyVal
  MakeNotesFile : Bool
  CheckSum : Option Nat
deriving DecidableEq

/-- The row with the `CheckSum` column dropped (line 525), as a tuple. -/
def FieldRow.nonChecksum (r : FieldRow) :
    PyVal × PyVal × PyVal × PyVal × PyVal × PyVal × PyVal × Bool :=
  (r.Year, r.Month, r.Day, r.Sensor, r.Technician, r.Runs, r.Site, r.MakeNotesFile)

/-- Abstract stand-in for `pd.util.hash_pandas_object(...).sum()`. -/
abbrev HashFn :=
  PyVal × PyVal × PyVal × PyVal × PyVal × PyVal × PyVal × Bool → Nat

/-- Line 526: `float(hashes.sum() % 100000000)`. -/
def computeCheck (h : HashFn) (r : FieldRow) : Nat :=
  h r.nonChecksum % 100000000

/-- Gregorian leap year. -/
def isLeapYear (y : Int) : Bool :=
  (y % 4 == 0 && !(y % 100 == 0)) || (y % 400 == 0)

/-- Days in a Gregorian month. -/
def daysInMonth (y m : Int) : Int :=
  if m = 2 then (if isLeapYear y then 29 else 28)
  else if m = 4 ∨ m = 6 ∨ m = 9 ∨ m = 11 then 30
  else 31

/-- Whether `pd.Timestamp(f"{y}-{m}-{d}")` succeeds: a real calendar date,
with the year kept inside `pd.Timestamp`'s representable range. -/
def validDate (y m d : Int) : Bool :=
  1678 ≤ y && y ≤ 2261 && 1 ≤ m && m ≤ 12 && 1 ≤ d && d ≤ daysInMonth y m

/-- Days since 1970-01-01 of a Gregorian date (civil-calendar conversion). -/
def daysFromCivil (y m d : Int) : Int :=
  let yy := if m ≤ 2 then y - 1 else y
  let era := (if 0 ≤ yy then yy else yy - 399) / 400
  let yoe := yy - era * 400
  let mp := (m + 9) % 12
  let doy := (153 * mp + 2) / 5 + (d - 1)
  let doe := yoe * 365 + yoe / 4 - yoe / 100 + doy
  era * 146097 + doe - 719468

/-- The timestamp (in seconds) of midnight of a calendar date. -/
def epochSecs (y m d : Int) : Int :=
  86400 * daysFromCivil y m d

/-- The distinct failure branches of `Rowchecker` (each raises a `ValueError`
through `_ErrorMessage`, lines 518-522). -/
inductive Cause where
  | TypeMismatch (field : String)
  | InvalidDate
  | FutureDate
  | TooHistorical
  | UnknownSensor
  | InvalidRunCount
  | UnknownSite
  | SiteYearMismatch
deriving DecidableEq

/-- Payload of the `ValueError` raised by `_ErrorMessage`: the field-log file
name, the full offending row, and the cause. -/
structure RowError where
  flog : String
  row : FieldRow
  cause : Cause
deriving DecidableEq

/-- Successful result of `Rowchecker`: the checksum to write back (`none`
when the stored checksum already matches), the resolved site, and whether the
checksum-mismatch branch (print + `breakpoint()`, line 530-531) was taken. -/
structure RowOk where
  check : Option Nat
  site : Site
  conflict : Bool
deriving DecidableEq

/-- Line 564: `flrow.Sensor in prow[prow == True].index`. -/
def validSensor (prow : List (String × Bool)) (v : PyVal) : Bool :=
  (prow.filter (fun p => p.2)).any (fun p => v.pyEqStr p.1)

/-- Lines 577-585: scan the site list; on a name match with a year mismatch
log and continue, on a name and year match stop with that site. -/
def findSiteYear (siteVal yearVal : PyVal) : List Site → Option Site
  | [] => none
  | s :: rest =>
    if siteVal.pyEqStr s.name then
      if yearVal.pyEqInt s.year then some s
      else findSiteYear siteVal yearVal rest
    else findSiteYear siteVal yearVal rest

/-- `Rowchecker` (lines 480-590).  Validates one field-log row.  The checksum
comparison comes first; a mismatch prints and hits `breakpoint()` but then
falls through (the `sys.exit()` is commented out), so `check` keeps the
recomputed value and `conflict` records the event.  The exact-type checks,
date parse, sensor, run-count and site checks always run; only the
future/historical date-bounds block (lines 555-561) is guarded by
`if not check is None`.  `pastDate` models the `past_date` parameter, whose
default at the single call site is 14 days before now.

`checksumState` is the checksum comparison of lines 524-536: recompute;
against a NaN stored value the row is new (write-back needed); against an
equal stored value the row is done (`check = None`); against a different
stored value print, hit `breakpoint()` and continue with the recomputed
value, recording the conflict. -/
def checksumState (h : HashFn) (flrow : FieldRow) : Option Nat × Bool :=
  let check0 := computeCheck h flrow
  match flrow.CheckSum with
  | none => (some check0, false)
  | some stored =>
    if check0 = stored then (none, false)
    else (some check0, true)

def Rowchecker (h : HashFn) (now : Int) (flogFname : String) (flrow : FieldRow)
    (prow : List (String × Bool)) (ProjectInfo : ProjInfo)
    (historical : Bool) (pastDate : Int) : Except RowError RowOk :=
  let cs := checksumState h flrow
  let check := cs.1
  let conflict := cs.2
  if flrow.Year.typeIsInt = false then
    Except.error ⟨flogFname, flrow, Cause.TypeMismatch "Year"⟩
  else if flrow.Month.typeIsInt = false then
    Except.error ⟨flogFname, flrow, Cause.TypeMismatch "Month"⟩
  else if flrow.Day.typeIsInt = false then
    Except.error ⟨flogFname, flrow, Cause.TypeMismatch "Day"⟩
  else if flrow.Runs.typeIsInt = false then
    Except.error ⟨flogFname, flrow, Cause.TypeMismatch "Runs"⟩
  else if flrow.Technician.typeIsStr = false then
    Except.error ⟨flogFname, flrow, Cause.TypeMismatch "Technician"⟩
  else if flrow.Sensor.typeIsStr = false then
    Except.error ⟨flogFname, flrow, Cause.TypeMismatch "Sensor"⟩
  else if flrow.Site.typeIsStr = false then
    Except.error ⟨flogFname, flrow, Cause.TypeMismatch "Site"⟩
  else if validDate flrow.Year.toInt flrow.Month.toInt flrow.Day.toInt = false then
    Except.error ⟨flogFname, flrow, Cause.InvalidDate⟩
  else
    let date := epochSecs flrow.Year.toInt flrow.Month.toInt flrow.Day.toInt
    if check.isSome ∧ date > now + 43200 then
      Except.error ⟨flogFname, flrow, Cause.FutureDate⟩
    else if check.isSome ∧ ¬ (date > now + 43200) ∧ date < pastDate ∧ historical = false then
      Except.error ⟨flogFname, flrow, Cause.TooHistorical⟩
    else if validSensor prow flrow.Sensor = false then
      Except.error ⟨flogFname, flrow, Cause.UnknownSensor⟩
    else if flrow.Runs.toInt < 1 then
      Except.error ⟨flogFname, flrow, Cause.InvalidRunCount⟩
    else if (ProjectInfo.sites.map Site.name).any (fun nm => flrow.Site.pyEqStr nm) = false then
      Except.error ⟨flogFname, flrow, Cause.UnknownSite⟩
    else
      match findSiteYear flrow.Site flrow.Year ProjectInfo.sites with
      | none => Except.error ⟨flogFname, flrow, Cause.SiteYearMismatch⟩
      | some s => Except.ok ⟨check, s, conflict⟩

/-- Mutable world state threaded through the run: created directories
(`pymkdir` / `os.makedirs` calls, create-if-absent), created plain files
(`touch` and newly created summary files), CSV ledger files on disk
(file name to rows), the git index additions, and the `gitmod` flag.
External git queries (`GitPull`, `GitChanged`, `fileInRepo`) are reads of a
repository outside this state and are not modelled. -/
structure State where
  dirs : List String
  files : List String
  ledgers : List (String × List FieldRow)
  yamls : List String
  gitStaged : List String
  gitmod : Bool
deriving DecidableEq

/-- The empty filesystem/git state. -/
def initState : State := ⟨[], [], [], [], [], false⟩

/-- `pymkdir` (lines 592-611): `os.makedirs(path)` when the path is absent. -/
def pymkdir (st : State) (p : String) : State :=
  if p ∈ st.dirs then st else { st with dirs := st.dirs ++ [p] }

/-- `pathlib.Path(path).touch()` (line 144): create-empty-if-absent. -/
def touchFile (st : State) (p : String) : State :=
  if p ∈ st.files then st else { st with files := st.files ++ [p] }

/-- Replace (or append) the binding of a key in an association list. -/
def setAssoc (l : List (String × List FieldRow)) (k : String) (v : List FieldRow) :
    List (String × List FieldRow) :=
  match l with
  | [] => [(k, v)]
  | (k2, v2) :: rest => if k2 = k then (k, v) :: rest else (k2, v2) :: setAssoc rest k v

/-- `DataFrame.to_csv(fname)`: overwrite the CSV file on disk. -/
def writeCsv (st : State) (fname : String) (rows : List FieldRow) : State :=
  { st with ledgers := setAssoc st.ledgers fname rows }

/-- `repo.git.add(fname)` followed by `gitmod = True`, skipped under
`args.no_git`. -/
def gitAdd (st : State) (noGit : Bool) (p : String) : State :=
  if noGit then st
  else { st with
          gitStaged := if p ∈ st.gitStaged then st.gitStaged else st.gitStaged ++ [p],
          gitmod := true }

/-- Python `f"{n:02d}"`: decimal, zero-padded to a minimum width of 2
(the width is a minimum, so a 4-digit year is printed in full). -/
def fmt02d (n : Int) : String :=
  let s := toString n.natAbs
  let sign := if n < 0 then "-" else ""
  if sign.length + s.length < 2 then sign ++ "0" ++ s else sign ++ s

/-- Command-line arguments that reach the core (lines 754-758). -/
structure Args where
  noGit : Bool
  historical : Bool
deriving DecidableEq

/-- A node from the node YAML file (lines 40-42): name and sensor platforms. -/
structure NodeCfg where
  name : String
  SensorPlatforms : List String
deriving DecidableEq

/-- Set the `CheckSum` cell of the row at a positional index
(`df_flog.loc[index, "CheckSum"] = check`, line 148). -/
def updateChecksum : List FieldRow → Nat → Nat → List FieldRow
  | [], _, _ => []
  | r :: rest, 0, c => { r with CheckSum := some c } :: rest
  | r :: rest, Nat.succ k, c => r :: updateChecksum rest k c

/-- The three fixed per-run tier folders (line 139). -/
def tierFolders : List String := ["Tier0_raw", "Tier1_proc", "Tier2_traits"]

/-- `Sitebuilder` (lines 85-154).  Derives the site name, ensures the sensor
folder, the dated day folder with `run_{NN}/{tier}` subfolders for each of
`Runs` runs (`np.arange(frow.Runs)`), optionally touches `FieldNotes.txt`,
and — only when `check` is not `None` — writes the checksum into the ledger
row, rewrites the CSV and stages it. -/
def Sitebuilder (args : Args) (flogFname : String) (dfFlog : List FieldRow)
    (index : Nat) (frow : FieldRow) (check : Option Nat) (site : Site)
    (project : String) (node : NodeCfg) (st : State) :
    Except String (List FieldRow × State) :=
  match _sitenamemaker site with
  | Except.error e => Except.error e
  | Except.ok sitename =>
    let sensorDir := "./" ++ node.name ++ "/" ++ project ++ "/" ++ sitename ++ "/" ++ frow.Sensor.toStr
    let st := pymkdir st sensorDir
    let dname := fmt02d frow.Year.toInt ++ fmt02d frow.Month.toInt ++ fmt02d frow.Day.toInt
    let folder := sensorDir ++ "/" ++ dname
    let st := (List.range frow.Runs.toInt.toNat).foldl
      (fun acc (runNo : Nat) => tierFolders.foldl
        (fun acc2 fldr => pymkdir acc2 (folder ++ "/run_" ++ fmt02d (runNo : Int) ++ "/" ++ fldr)) acc) st
    let st := if frow.MakeNotesFile then touchFile st (folder ++ "/FieldNotes.txt") else st
    match check with
    | none => Except.ok (dfFlog, st)
    | some c =>
      let df2 := updateChecksum dfFlog index c
      let st := writeCsv st flogFname df2
      let st := gitAdd st args.noGit flogFname
      Except.ok (df2, st)

/-- External inputs of one run: the node list from the node YAML, and the
on-disk project summary tables, project YAML files and field logs (absent
entries model missing files, which the source creates from templates).
Tables and logs are taken as already column-reconciled; `_df_col_check`
applied to a table whose columns already match the required list is the
identity (proved below on the generic table model). -/
structure Env where
  nodes : List NodeCfg
  tables : List (String × List (String × List (String × Bool)))
  projInfos : List ((String × String) × ProjInfo)
  fieldLogs : List ((String × String) × List FieldRow)

/-- Look up a node's project summary table (rows: project name with one
boolean per sensor platform). -/
def lookupTable (env : Env) (n : String) :
    Option (List (String × List (String × Bool))) :=
  (env.tables.find? (fun p => p.1 == n)).map (fun p => p.2)

/-- Look up a project's `ProjectSummary.yaml` contents. -/
def lookupProj (env : Env) (n p : String) : Option ProjInfo :=
  (env.projInfos.find? (fun q => q.1.1 == n && q.1.2 == p)).map (fun q => q.2)

/-- Look up a project's `FieldLog.csv` rows. -/
def lookupFlog (env : Env) (n p : String) : Option (List FieldRow) :=
  (env.fieldLogs.find? (fun q => q.1.1 == n && q.1.2 == p)).map (fun q => q.2)

/-- The placeholder site written by `_projYAML`'s template (lines 351-363). -/
def templateProjInfo : ProjInfo := ⟨[⟨"", -9999, YVal.ynull⟩]⟩

/-- Lines 224-237: for every configured non-placeholder site (nonempty name,
year not -9999), derive the site name (which can raise) and ensure the site
folder with its `Documentation` and `Code` subfolders. -/
def siteFolders (base : String) : State → List Site → Except (String × State) State
  | st, [] => Except.ok st
  | st, site :: rest =>
    if site.name = "" ∨ site.year = -9999 then siteFolders base st rest
    else
      match _sitenamemaker site with
      | Except.error e => Except.error (e, st)
      | Except.ok sn =>
        let st := pymkdir st (base ++ "/" ++ sn)
        let st := pymkdir st (base ++ "/" ++ sn ++ "/Documentation")
        let st := pymkdir st (base ++ "/" ++ sn ++ "/Code")
        siteFolders base st rest

/-- `projBuilder` (lines 156-239): ensure the project `Documentation` and
`Code` folders, ensure and load `ProjectSummary.yaml` (template when absent),
ensure and load `FieldLog.csv` (empty when absent), ensure all site folders.
Returns the loaded field log, the updated state, the field-log file name and
the project info. -/
def projBuilder (env : Env) (args : Args) (project : String) (node : NodeCfg)
    (st : State) : Except (String × State) (List FieldRow × State × String × ProjInfo) :=
  let base := "./" ++ node.name ++ "/" ++ project
  let st := pymkdir st (base ++ "/Documentation")
  let st := pymkdir st (base ++ "/Code")
  let psyl := base ++ "/ProjectSummary.yaml"
  let pInfo := (lookupProj env node.name project).getD templateProjInfo
  let st :=
    match lookupProj env node.name project with
    | none => gitAdd { st with yamls := st.yamls ++ [psyl] } args.noGit psyl
    | some _ => st
  let flog := base ++ "/FieldLog.csv"
  let dfSt : List FieldRow × State :=
    match lookupFlog env node.name project with
    | none => ([], gitAdd (writeCsv st flog []) args.noGit flog)
    | some rows => (rows, st)
  match siteFolders base dfSt.2 pInfo.sites with
  | Except.error e => Except.error e
  | Except.ok st2 => Except.ok (dfSt.1, st2, flog, pInfo)

/-- `NodeChecker` (lines 242-297): ensure the node folder and the node's
`{name}_ProjectsSummary.csv` (created empty and staged when absent), and
return the table of project rows. -/
def NodeChecker (env : Env) (args : Args) (node : NodeCfg) (st : State) :
    List (String × List (String × Bool)) × State :=
  let st := pymkdir st ("./" ++ node.name)
  let pfilename := "./" ++ node.name ++ "/" ++ node.name ++ "_ProjectsSummary.csv"
  match lookupTable env node.name with
  | none => ([], gitAdd { st with files := st.files ++ [pfilename] } args.noGit pfilename)
  | some t => (t, st)

/-- Abort reason of a run: a `ValueError` from `Rowchecker`, or a
configuration `ValueError` from `_sitenamemaker`. -/
inductive Err where
  | rowErr (e : RowError)
  | cfgErr (m : String)
deriving DecidableEq

/-- The inner loop of `main` (lines 62-67): for each `(index, row)` of the
field log, run `Rowchecker` then `Sitebuilder`, threading the in-memory
field log and the state.  An uncaught `ValueError` aborts the whole run; the
error carries the on-disk state at the moment it is raised. -/
def rowLoop (h : HashFn) (now : Int) (args : Args) (flogFname : String)
    (prow : List (String × Bool)) (pInfo : ProjInfo) (pastDate : Int)
    (project : String) (node : NodeCfg) :
    List FieldRow → State → List (Nat × FieldRow) →
    Except (Err × State) (List FieldRow × State)
  | df, st, [] => Except.ok (df, st)
  | df, st, (idx, frow) :: rest =>
    match Rowchecker h now flogFname frow prow pInfo args.historical pastDate with
    | Except.error e => Except.error (Err.rowErr e, st)
    | Except.ok r =>
      match Sitebuilder args flogFname df idx frow r.check r.site project node st with
      | Except.error m => Except.error (Err.cfgErr m, st)
      | Except.ok (df2, st2) =>
        rowLoop h now args flogFname prow pInfo pastDate project node df2 st2 rest

/-- The per-project loop of `main` (lines 54-67): `projBuilder`, then — when
the field log is nonempty — the row loop over `df_flog.iterrows()`. -/
def projLoop (h : HashFn) (now : Int) (env : Env) (args : Args) (node : NodeCfg) :
    State → List (String × List (String × Bool)) → Except (Err × State) State
  | st, [] => Except.ok st
  | st, (project, prow) :: rest =>
    match projBuilder env args project node st with
    | Except.error e => Except.error (Err.cfgErr e.1, e.2)
    | Except.ok (df, st1, flog, pInfo) =>
      let step :=
        if df.isEmpty then Except.ok (df, st1)
        else rowLoop h now args flog prow pInfo (now - 14 * 86400) project node df st1 df.enum
      match step with
      | Except.error e => Except.error e
      | Except.ok (_, st2) => projLoop h now env args node st2 rest

/-- The node loop of `main` (lines 42-67): `NodeChecker`, then — `break`ing
out of the whole loop when the table is empty (line 51) — the project loop. -/
def nodeLoop (h : HashFn) (now : Int) (env : Env) (args : Args) :
    State → List NodeCfg → Except (Err × State) State
  | st, [] => Except.ok st
  | st, node :: rest =>
    let ts := NodeChecker env args node st
    if ts.1.isEmpty then Except.ok ts.2
    else
      match projLoop h now env args node ts.2 ts.1 with
      | Except.error e => Except.error e
      | Except.ok st2 => nodeLoop h now env args st2 rest

/-- `main` (lines 30-82): the node loop over the node YAML.  `past_date`
defaults at the call site to 14 days before now (line 480). -/
def mainRun (h : HashFn) (now : Int) (args : Args) (env : Env) (st : State) :
    Except (Err × State) State :=
  nodeLoop h now env args st env.nodes

/-- A rectangular table with labelled columns, the shape `_df_col_check`
operates on (`ProjectsSummary.csv` and `FieldLog.csv` are both read into
DataFrames with a fixed header row). -/
structure Table (α : Type) where
  cols : List String
  rows : List (List α)
deriving DecidableEq

/-- `dfx[col] = fill_val`: append a column populated with a constant. -/
def addCol {α : Type} (t : Table α) (c : String) (fill : α) : Table α :=
  ⟨t.cols ++ [c], t.rows.map (fun r => r ++ [fill])⟩

/-- `dfx = dfx[colnms]`: project onto the named columns, in that order.
`fill` is only the out-of-range default of `getD`; every selected column
exists whenever the call follows the missing-column insertion. -/
def selectCols {α : Type} (t : Table α) (colnms : List String) (fill : α) : Table α :=
  ⟨colnms, t.rows.map (fun r => colnms.map (fun c => r.getD (t.cols.indexOf c) fill))⟩

/-- `_df_col_check` (lines 385-444): when the column list differs from the
required one, add the missing columns filled with `fill_val`, reorder to the
required list and persist.  (In the source, `missing_cols == {}` compares a
set with a dict and is never true, so the fix branch always runs when the
column lists differ.)  The second component records whether `to_csv` was
called. -/
def _df_col_check {α : Type} (t : Table α) (colnms : List String) (fillVal : α) :
    Table α × Bool :=
  if t.cols = colnms then (t, false)
  else
    let missing := colnms.filter (fun c => !(t.cols.contains c))
    let t1 := missing.foldl (fun acc c => addCol acc c fillVal) t
    let t2 := selectCols t1 colnms fillVal
    (t2, true)

/-! Test fixtures: a minimal project configuration used to instantiate the
theorems.  `prow0` enables the single sensor `"S"`; `pi0 y` configures the
single site `"Main"` with year `y`; `baseRow y m d` is a well-formed new row
against that configuration. -/

/-- A constant stand-in hash function. -/
def hashConst (n : Nat) : HashFn := fun _ => n

/-- Project summary row enabling exactly the sensor `"S"`. -/
def prow0 : List (String × Bool) := [("S", true)]

/-- The configured test site, uncontrolled (`ControlledEnvironment: null`). -/
def siteOf (y : Int) : Site := ⟨"Main", y, YVal.ynull⟩

/-- Project info with the single test site. -/
def pi0 (y : Int) : ProjInfo := ⟨[siteOf y]⟩

/-- A well-formed field-log row for the test project, with the given stored
checksum cell. -/
def rowCS (y m d : Int) (cs : Option Nat) : FieldRow :=
  ⟨.pyInt y, .pyInt m, .pyInt d, .pyStr "S", .pyStr "T", .pyInt 1, .pyStr "Main", false, cs⟩

/-- A well-formed new field-log row (NaN checksum) for the test project. -/
def baseRow (y m d : Int) : FieldRow := rowCS y m d none

/-- `baseRow` with its checksum stored as the recomputed value (a match). -/
def matchedBase (h : HashFn) (y m d : Int) : FieldRow :=
  rowCS y m d (some (computeCheck h (baseRow y m d)))

/-- A field-log row for the test project whose sensor `"X"` is not enabled
in `prow0`, with the given stored checksum cell. -/
def rowBadSensorCS (y m d : Int) (cs : Option Nat) : FieldRow :=
  ⟨.pyInt y, .pyInt m, .pyInt d, .pyStr "X", .pyStr "T", .pyInt 1, .pyStr "Main", false, cs⟩

/-- `rowBadSensorCS` with a matching stored checksum. -/
def matchedBadSensor (h : HashFn) (y m d : Int) : FieldRow :=
  rowBadSensorCS y m d (some (computeCheck h (rowBadSensorCS y m d none)))

/-- A generic node for the single-row fixtures. -/
def nodeX : NodeCfg := ⟨"N", ["S"]⟩

/-! Fixtures for the end-to-end scenario of the spec (section 8): node
Narrabri with sensor platforms GOBI and M3M, project P1, site Main/2024
uncontrolled, and the ledger row {2024,6,1,"M3M","Tech1",2,"Main",false,NaN}. -/

/-- The Narrabri node. -/
def node4 : NodeCfg := ⟨"Narrabri", ["GOBI", "M3M"]⟩

/-- The scenario ledger row. -/
def row4 : FieldRow :=
  ⟨.pyInt 2024, .pyInt 6, .pyInt 1, .pyStr "M3M", .pyStr "Tech1", .pyInt 2, .pyStr "Main", false, none⟩

/-- The scenario site: Main, 2024, controlledEnvironment false. -/
def site4 : Site := ⟨"Main", 2024, .ybool false⟩

/-- The scenario environment: one node, project P1 with M3M enabled, one
site, a one-row field log. -/
def env4 : Env :=
  ⟨[node4],
   [("Narrabri", [("P1", [("GOBI", false), ("M3M", true)])])],
   [(("Narrabri", "P1"), ⟨[site4]⟩)],
   [(("Narrabri", "P1"), [row4])]⟩

/-- Scenario arguments: git disabled, historical not allowed. -/
def args4 : Args := ⟨true, false⟩

/-- The scenario project row: GOBI disabled, M3M enabled. -/
def prow4 : List (String × Bool) := [("GOBI", false), ("M3M", true)]

/-- The scenario project info. -/
def pi4 : ProjInfo := ⟨[site4]⟩

/-- The scenario field-log path. -/
def flog4 : String := "./Narrabri/P1/FieldLog.csv"

/-- State after `NodeChecker` on the scenario node. -/
def stNode4 : State := ⟨["./Narrabri"], [], [], [], [], false⟩

/-- State after `projBuilder` on the scenario project. -/
def stPre4 : State :=
  ⟨["./Narrabri", "./Narrabri/P1/Documentation", "./Narrabri/P1/Code",
    "./Narrabri/P1/2024Main_F", "./Narrabri/P1/2024Main_F/Documentation",
    "./Narrabri/P1/2024Main_F/Code"], [], [], [], [], false⟩

/-- Final state of the scenario run, as a function of the checksum written
back into the ledger row. -/
def stPost4 (v : Nat) : State :=
  ⟨["./Narrabri", "./Narrabri/P1/Documentation", "./Narrabri/P1/Code",
    "./Narrabri/P1/2024Main_F", "./Narrabri/P1/2024Main_F/Documentation",
    "./Narrabri/P1/2024Main_F/Code", "./Narrabri/P1/2024Main_F/M3M",
    "./Narrabri/P1/2024Main_F/M3M/20240601/run_00/Tier0_raw",
    "./Narrabri/P1/2024Main_F/M3M/20240601/run_00/Tier1_proc",
    "./Narrabri/P1/2024Main_F/M3M/20240601/run_00/Tier2_traits",
    "./Narrabri/P1/2024Main_F/M3M/20240601/run_01/Tier0_raw",
    "./Narrabri/P1/2024Main_F/M3M/20240601/run_01/Tier1_proc",
    "./Narrabri/P1/2024Main_F/M3M/20240601/run_01/Tier2_traits"],
   [],
   [("./Narrabri/P1/FieldLog.csv", [{ row4 with CheckSum := some v }])],
   [], [], false⟩

/-- A row whose `Year` cell is the boolean `True`: fails the exact-type
check. -/
def rowBadYear : FieldRow :=
  ⟨.pyBool true, .pyInt 6, .pyInt 1, .pyStr "S", .pyStr "T", .pyInt 1, .pyStr "Main", false, none⟩

/-- One-node environment whose single field-log row fails validation. -/
def envC2 : Env :=
  ⟨[nodeX], [("N", [("P", prow0)])], [(("N", "P"), pi0 2024)], [(("N", "P"), [rowBadYear])]⟩

/-- State after `NodeChecker` on `envC2`. -/
def stNodeC2 : State := ⟨["./N"], [], [], [], [], false⟩

/-- State after `projBuilder` on `envC2` — the state the run aborts in. -/
def stPreC2 : State :=
  ⟨["./N", "./N/P/Documentation", "./N/P/Code", "./N/P/2024Main",
    "./N/P/2024Main/Documentation", "./N/P/2024Main/Code"], [], [], [], [], false⟩

/-- Two-node environment for the empty-table claim: node `A` has an empty
project summary table, node `B` has a project `P` with one site. -/
def envC5 : Env :=
  ⟨[⟨"A", ["S"]⟩, ⟨"B", ["S"]⟩],
   [("A", []), ("B", [("P", [("S", true)])])],
   [(("B", "P"), ⟨[⟨"Main", 2024, .ynull⟩]⟩)],
   [(("B", "P"), [])]⟩

/-! ## Theorems -/

/-- C8 counterexample: the claim asserts `NameDeriver` fails if and only if
`controlledEnvironment` holds a value outside {true, false, null}.  The YAML
integer `1` is outside that set, yet `_sitenamemaker` accepts it and returns
the `_C` suffix, because Python's `1 in [True, False]` membership test uses
`==` and `1 == True`.  So the "fails if" direction of the claim is false. -/
theorem C8_counterexample :
    YVal.yint 1 ≠ YVal.ynull ∧ YVal.yint 1 ≠ YVal.ybool true ∧
    YVal.yint 1 ≠ YVal.ybool false ∧
    _sitenamemaker ⟨"Main", 2024, YVal.yint 1⟩ = Except.ok ("2024Main_C") :=
  ⟨by decide, by decide, by decide, rfl⟩

/-- C8 amended: `NameDeriver` returns `{year}{name}` with suffix `_C` for
true, `_F` for false and no suffix for null; additionally the integers `1`
and `0` are silently accepted as true and false (Python `==` equates them
with the booleans), and it fails with a configuration error exactly on every
other non-null, non-boolean value. -/
theorem C8_amended (site : Site) :
    (site.ControlledEnvironment = YVal.ynull →
      _sitenamemaker site = Except.ok (toString site.year ++ site.name)) ∧
    (site.ControlledEnvironment = YVal.ybool true →
      _sitenamemaker site = Except.ok (toString site.year ++ site.name ++ "_C")) ∧
    (site.ControlledEnvironment = YVal.ybool false →
      _sitenamemaker site = Except.ok (toString site.year ++ site.name ++ "_F")) ∧
    (site.ControlledEnvironment = YVal.yint 1 →
      _sitenamemaker site = Except.ok (toString site.year ++ site.name ++ "_C")) ∧
    (site.ControlledEnvironment = YVal.yint 0 →
      _sitenamemaker site = Except.ok (toString site.year ++ site.name ++ "_F")) ∧
    (∀ n : Int, site.ControlledEnvironment = YVal.yint n → n ≠ 0 → n ≠ 1 →
      _sitenamemaker site =
        Except.error ("Site: " ++ site.name ++ " has an invalid ControlledEnvironment: Must be True, False or null.")) ∧
    (∀ s : String, site.ControlledEnvironment = YVal.ystr s →
      _sitenamemaker site =
        Except.error ("Site: " ++ site.name ++ " has an invalid ControlledEnvironment: Must be True, False or null.")) := by
  obtain ⟨nm, yr, ce⟩ := site
  refine ⟨fun h => ?_, fun h => ?_, fun h => ?_, fun h => ?_, fun h => ?_,
    fun n h hn0 hn1 => ?_, fun s h => ?_⟩
  all_goals subst h
  all_goals simp_all [_sitenamemaker, YVal.inTrueFalseList, YVal.truthy]

/-- C8 witness: the amended theorem applied at a concrete controlled site. -/
theorem C8_amended_witness :
    _sitenamemaker ⟨"Main", 2024, YVal.ybool true⟩ = Except.ok ("2024Main_C") :=
  (C8_amended ⟨"Main", 2024, YVal.ybool true⟩).2.1 rfl

/-- C1 counterexample: the claim asserts that on a stored-but-mismatching
checksum the validator halts and never returns a (checksum, site) result.
With the stored checksum 7 and the recomputed checksum 42, `Rowchecker`
prints, hits the `breakpoint()` (recorded by the `conflict` flag) and then
proceeds to return `(42, Main-site)`; fed to the builder loop, the row's
folders are materialized and the ledger row's checksum is rewritten to 42. -/
theorem C1_counterexample :
    Rowchecker (hashConst 42) (epochSecs 2024 6 1) ("f") (rowCS 2024 6 1 (some 7)) prow0
        (pi0 2024) false (epochSecs 2024 6 1 - 14 * 86400) =
      Except.ok ⟨some 42, siteOf 2024, true⟩ ∧
    Except.map (fun p => p.1.map FieldRow.CheckSum)
        (rowLoop (hashConst 42) (epochSecs 2024 6 1) ⟨true, false⟩ ("f") prow0 (pi0 2024)
          (epochSecs 2024 6 1 - 14 * 86400) ("P") nodeX [rowCS 2024 6 1 (some 7)] initState
          [(0, rowCS 2024 6 1 (some 7))]) =
      Except.ok [some 42] :=
  ⟨rfl, rfl⟩

/-- C1 amended: on a stored-but-mismatching checksum the validator does not
halt — it prints the conflict warning and drops into the interactive
`breakpoint()` (`sys.exit()` is commented out); when execution resumes it
continues like a new row, runs the remaining checks, and returns the
recomputed `(checksum, site)` pair (conflict flag recorded), letting the
builder materialize folders and overwrite the stored checksum. -/
theorem C1_amended (h : HashFn) (now pastDate : Int) (fname : String) (hist : Bool)
    (y m d : Int) (stored : Nat)
    (hv : validDate y m d = true)
    (hne : stored ≠ computeCheck h (baseRow y m d))
    (hf : epochSecs y m d ≤ now + 43200)
    (hp : pastDate ≤ epochSecs y m d) :
    Rowchecker h now fname (rowCS y m d (some stored)) prow0 (pi0 y) hist pastDate =
      Except.ok ⟨some (computeCheck h (baseRow y m d)), siteOf y, true⟩ := by
  have hne2 : ¬ (computeCheck h (rowCS y m d (some stored)) = stored) :=
    fun hh => hne (Eq.symm hh)
  have hgt : ¬ (epochSecs y m d > now + 43200) := by omega
  have hlt : ¬ (epochSecs y m d < pastDate) := by omega
  simp only [checksumState, computeCheck, FieldRow.nonChecksum, rowCS] at hne2
  unfold Rowchecker
  simp [rowCS, hne2, PyVal.typeIsInt, PyVal.typeIsStr, PyVal.toInt, hv, hgt, hlt,
    validSensor, prow0, PyVal.pyEqStr, pi0, siteOf, findSiteYear, PyVal.pyEqInt,
    baseRow, checksumState, computeCheck, FieldRow.nonChecksum]

/-- C1 witness: the amended theorem at the concrete mismatching row
(stored 7, recomputed 42). -/
theorem C1_amended_witness :
    Rowchecker (hashConst 42) (epochSecs 2024 6 2) ("g") (rowCS 2024 6 2 (some 7)) prow0
        (pi0 2024) false (epochSecs 2024 6 2 - 14 * 86400) =
      Except.ok ⟨some 42, siteOf 2024, true⟩ :=
  C1_amended (hashConst 42) (epochSecs 2024 6 2) (epochSecs 2024 6 2 - 14 * 86400) ("g")
    false 2024 6 2 7 (by decide) (by decide) (by omega) (by omega)

/-- C3 counterexample: the claim asserts that on a checksum match all
fields-level checks are skipped entirely and `(None, resolvedSite)` is
returned immediately.  For a row whose stored checksum matches the
recomputed one (both 42) but whose sensor `"X"` is not enabled,
`Rowchecker` raises `UnknownSensor` instead of returning: the sensor,
type, date, run-count and site checks are not skipped on a match. -/
theorem C3_counterexample :
    (matchedBadSensor (hashConst 42) 2024 6 1).CheckSum =
      some (computeCheck (hashConst 42) (matchedBadSensor (hashConst 42) 2024 6 1)) ∧
    Rowchecker (hashConst 42) 0 ("f") (matchedBadSensor (hashConst 42) 2024 6 1) prow0
        (pi0 2024) false 0 =
      Except.error ⟨"f", matchedBadSensor (hashConst 42) 2024 6 1, Cause.UnknownSensor⟩ :=
  ⟨rfl, rfl⟩

/-- C3 amended: on a checksum match only the future/historical date-bounds
check is skipped (for any `now`, `pastDate` and `historical`); the
exact-type, date-validity, sensor, run-count and site checks still execute —
a matched row with a disabled sensor fails with `UnknownSensor` — and when
they all pass, `(None, resolvedSite)` is returned with the site resolved for
the caller. -/
theorem C3_amended (h : HashFn) (now pastDate : Int) (fname : String) (hist : Bool)
    (y m d : Int) (hv : validDate y m d = true) :
    Rowchecker h now fname (matchedBase h y m d) prow0 (pi0 y) hist pastDate =
      Except.ok ⟨none, siteOf y, false⟩ ∧
    Rowchecker h now fname (matchedBadSensor h y m d) prow0 (pi0 y) hist pastDate =
      Except.error ⟨fname, matchedBadSensor h y m d, Cause.UnknownSensor⟩ := by
  constructor
  · unfold Rowchecker
    simp [matchedBase, rowCS, baseRow, checksumState, computeCheck, FieldRow.nonChecksum, hv,
      PyVal.typeIsInt, PyVal.typeIsStr, PyVal.toInt, validSensor, prow0, PyVal.pyEqStr,
      pi0, siteOf, findSiteYear, PyVal.pyEqInt]
  · unfold Rowchecker
    simp [matchedBadSensor, rowBadSensorCS, checksumState, computeCheck, FieldRow.nonChecksum, hv,
      PyVal.typeIsInt, PyVal.typeIsStr, PyVal.toInt, validSensor, prow0, PyVal.pyEqStr]

/-- C3 witness: the amended theorem at the concrete matched row. -/
theorem C3_amended_witness :
    Rowchecker (hashConst 42) 0 ("f") (matchedBase (hashConst 42) 2024 6 1) prow0
        (pi0 2024) false 0 =
      Except.ok ⟨none, siteOf 2024, false⟩ :=
  (C3_amended (hashConst 42) 0 0 ("f") false 2024 6 1 (by decide)).1

/-- C10: the row type checks use Python's exact `type(x) == int` /
`type(x) == str`, so a boolean (a subtype of `int` denoting 0 or 1) and a
numpy fixed-width integer both fail the integer check with `TypeMismatch`,
and a numpy string (a subtype of `str`) fails the string check — for every
row, any hash function and any configuration, regardless of the value
denoted. -/
theorem C10_exact_type_checks (h : HashFn) (now pastDate : Int) (fname : String)
    (prow : List (String × Bool)) (pInfo : ProjInfo) (hist : Bool) (frow : FieldRow)
    (b : Bool) (n yv mv dv rv : Int) (s : String) :
    (frow.Year = PyVal.pyBool b →
      Rowchecker h now fname frow prow pInfo hist pastDate =
        Except.error ⟨fname, frow, Cause.TypeMismatch ("Year")⟩) ∧
    (frow.Year = PyVal.npInt n →
      Rowchecker h now fname frow prow pInfo hist pastDate =
        Except.error ⟨fname, frow, Cause.TypeMismatch ("Year")⟩) ∧
    (frow.Year = PyVal.pyInt yv → frow.Month = PyVal.pyInt mv →
      frow.Day = PyVal.pyInt dv → frow.Runs = PyVal.pyInt rv →
      frow.Technician = PyVal.npStr s →
      Rowchecker h now fname frow prow pInfo hist pastDate =
        Except.error ⟨fname, frow, Cause.TypeMismatch ("Technician")⟩) := by
  refine ⟨fun h1 => ?_, fun h1 => ?_, fun h1 h2 h3 h4 h5 => ?_⟩ <;>
    unfold Rowchecker <;>
    simp [h1, PyVal.typeIsInt, PyVal.typeIsStr]
  · simp [h2, h3, h4, h5, PyVal.typeIsInt, PyVal.typeIsStr]

/-- C10 witness: a row whose `Year` cell is the boolean `True` (which
denotes the integer 1) is rejected with `TypeMismatch` on `Year`. -/
theorem C10_exact_type_checks_witness :
    Rowchecker (hashConst 42) 0 ("f")
        ⟨.pyBool true, .pyInt 6, .pyInt 1, .pyStr "S", .pyStr "T", .pyInt 1, .pyStr "Main", false, none⟩
        prow0 (pi0 2024) false 0 =
      Except.error ⟨"f",
        ⟨.pyBool true, .pyInt 6, .pyInt 1, .pyStr "S", .pyStr "T", .pyInt 1, .pyStr "Main", false, none⟩,
        Cause.TypeMismatch ("Year")⟩ :=
  (C10_exact_type_checks (hashConst 42) 0 0 ("f") prow0 (pi0 2024) false
    ⟨.pyBool true, .pyInt 6, .pyInt 1, .pyStr "S", .pyStr "T", .pyInt 1, .pyStr "Main", false, none⟩
    true 0 0 0 0 0 ("")).1 rfl

/-- C6: for a new (NaN-checksum) row the temporal bounds are inclusive at
both ends: a row dated exactly `now + 12h` passes and any later date fails
with `FutureDate`; a row dated exactly `pastDate` (the
`referenceTime - 14 days` parameter) passes regardless of `historical`,
and any earlier date fails with `TooHistorical` exactly when `historical`
is not set. -/
theorem C6_temporal_bounds_inclusive (h : HashFn) (fname : String) (hist : Bool)
    (y m d now pastDate : Int) (hv : validDate y m d = true) :
    (epochSecs y m d = now + 43200 → pastDate ≤ epochSecs y m d →
      Rowchecker h now fname (baseRow y m d) prow0 (pi0 y) hist pastDate =
        Except.ok ⟨some (computeCheck h (baseRow y m d)), siteOf y, false⟩) ∧
    (epochSecs y m d > now + 43200 →
      Rowchecker h now fname (baseRow y m d) prow0 (pi0 y) hist pastDate =
        Except.error ⟨fname, baseRow y m d, Cause.FutureDate⟩) ∧
    (pastDate = epochSecs y m d → epochSecs y m d ≤ now + 43200 →
      Rowchecker h now fname (baseRow y m d) prow0 (pi0 y) hist pastDate =
        Except.ok ⟨some (computeCheck h (baseRow y m d)), siteOf y, false⟩) ∧
    (epochSecs y m d < pastDate → epochSecs y m d ≤ now + 43200 → hist = false →
      Rowchecker h now fname (baseRow y m d) prow0 (pi0 y) hist pastDate =
        Except.error ⟨fname, baseRow y m d, Cause.TooHistorical⟩) ∧
    (epochSecs y m d < pastDate → epochSecs y m d ≤ now + 43200 → hist = true →
      Rowchecker h now fname (baseRow y m d) prow0 (pi0 y) hist pastDate =
        Except.ok ⟨some (computeCheck h (baseRow y m d)), siteOf y, false⟩) := by
  refine ⟨fun he hpd => ?_, fun hgt => ?_, fun hpd hle => ?_,
    fun hlt hle hh => ?_, fun hlt hle hh => ?_⟩ <;> unfold Rowchecker
  · have h1 : ¬ (epochSecs y m d > now + 43200) := by omega
    have h2 : ¬ (epochSecs y m d < pastDate) := by omega
    simp [baseRow, rowCS, checksumState, computeCheck, FieldRow.nonChecksum, hv, h1, h2,
      PyVal.typeIsInt, PyVal.typeIsStr, PyVal.toInt, validSensor, prow0, PyVal.pyEqStr,
      pi0, siteOf, findSiteYear, PyVal.pyEqInt]
  · simp [baseRow, rowCS, checksumState, computeCheck, FieldRow.nonChecksum, hv, hgt,
      PyVal.typeIsInt, PyVal.typeIsStr, PyVal.toInt]
  · have h1 : ¬ (epochSecs y m d > now + 43200) := by omega
    have h2 : ¬ (epochSecs y m d < pastDate) := by omega
    simp [baseRow, rowCS, checksumState, computeCheck, FieldRow.nonChecksum, hv, h1, h2,
      PyVal.typeIsInt, PyVal.typeIsStr, PyVal.toInt, validSensor, prow0, PyVal.pyEqStr,
      pi0, siteOf, findSiteYear, PyVal.pyEqInt]
  · have h1 : ¬ (epochSecs y m d > now + 43200) := by omega
    subst hh
    simp [baseRow, rowCS, checksumState, computeCheck, FieldRow.nonChecksum, hv, h1, hlt,
      PyVal.typeIsInt, PyVal.typeIsStr, PyVal.toInt]
  · have h1 : ¬ (epochSecs y m d > now + 43200) := by omega
    subst hh
    simp [baseRow, rowCS, checksumState, computeCheck, FieldRow.nonChecksum, hv, h1, hlt,
      PyVal.typeIsInt, PyVal.typeIsStr, PyVal.toInt, validSensor, prow0, PyVal.pyEqStr,
      pi0, siteOf, findSiteYear, PyVal.pyEqInt]

/-- C6 witness: the boundary theorem at 2024-06-01 — dated exactly
`now + 12h` the row passes; with `now` one second earlier (so the date
exceeds `now + 12h`) it fails with `FutureDate`. -/
theorem C6_temporal_bounds_inclusive_witness :
    Rowchecker (hashConst 42) (epochSecs 2024 6 1 - 43200) ("f") (baseRow 2024 6 1) prow0
        (pi0 2024) false (epochSecs 2024 6 1 - 14 * 86400) =
      Except.ok ⟨some 42, siteOf 2024, false⟩ ∧
    Rowchecker (hashConst 42) (epochSecs 2024 6 1 - 43201) ("f") (baseRow 2024 6 1) prow0
        (pi0 2024) false (epochSecs 2024 6 1 - 14 * 86400) =
      Except.error ⟨"f", baseRow 2024 6 1, Cause.FutureDate⟩ :=
  ⟨(C6_temporal_bounds_inclusive (hashConst 42) ("f") false 2024 6 1
      (epochSecs 2024 6 1 - 43200) (epochSecs 2024 6 1 - 14 * 86400) (by decide)).1
        (by omega) (by omega),
   (C6_temporal_bounds_inclusive (hashConst 42) ("f") false 2024 6 1
      (epochSecs 2024 6 1 - 43201) (epochSecs 2024 6 1 - 14 * 86400) (by decide)).2.1
        (by omega)⟩

/-- C5 counterexample: the claim asserts an empty project summary table for
one node still lets every subsequent node be processed.  In `envC5` node `A`
has an empty table and node `B` has a nonempty one, yet the run's final
directory list is just `./A`: the `break` at line 51 exits the whole node
loop, so node `B`'s folder, config and ledger are never touched. -/
theorem C5_counterexample :
    lookupTable envC5 ("B") = some [("P", [("S", true)])] ∧
    Except.map State.dirs (mainRun (hashConst 1) 0 args4 envC5 initState) =
      Except.ok ["./A"] :=
  ⟨rfl, rfl⟩

/-- C5 amended: when a node's project summary table is empty the builder
does not merely skip that node — it `break`s out of the node loop, returning
with only that node's folder/summary ensured and leaving every remaining
node unprocessed (the result does not depend on `rest`). -/
theorem C5_amended (h : HashFn) (now : Int) (env : Env) (args : Args) (node : NodeCfg)
    (rest : List NodeCfg) (st : State)
    (ht : (NodeChecker env args node st).1 = []) :
    nodeLoop h now env args st (node :: rest) =
      Except.ok (NodeChecker env args node st).2 := by
  unfold nodeLoop
  simp [ht]

/-- C5 witness: the amended theorem at the two-node environment with node
`A`'s table empty. -/
theorem C5_amended_witness :
    nodeLoop (hashConst 1) 0 envC5 args4 initState [⟨"A", ["S"]⟩, ⟨"B", ["S"]⟩] =
      Except.ok (NodeChecker envC5 args4 ⟨"A", ["S"]⟩ initState).2 :=
  C5_amended (hashConst 1) 0 envC5 args4 ⟨"A", ["S"]⟩ [⟨"B", ["S"]⟩] initState rfl

/-- Folding `addCol` appends the added column names to the header. -/
theorem addColFold_cols {α : Type} (missing : List String) (t : Table α) (fill : α) :
    (missing.foldl (fun acc c => addCol acc c fill) t).cols = t.cols ++ missing := by
  induction missing generalizing t with
  | nil => simp
  | cons c cs ih =>
    rw [List.foldl_cons, ih]
    simp [addCol]

/-- Folding `addCol` appends one `fill` cell per added column to each row. -/
theorem addColFold_rows {α : Type} (missing : List String) (t : Table α) (fill : α) :
    (missing.foldl (fun acc c => addCol acc c fill) t).rows =
      t.rows.map (fun r => r ++ missing.map (fun _ => fill)) := by
  induction missing generalizing t with
  | nil => simp
  | cons c cs ih =>
    rw [List.foldl_cons, ih]
    simp [addCol, List.map_map, Function.comp, List.append_assoc]

/-- `getD` over a constant-valued list with the same default is constant. -/
theorem getD_constMap {α : Type} (l : List String) (fill : α) (k : Nat) :
    (l.map (fun _ => fill)).getD k fill = fill := by
  rcases Nat.lt_or_ge k (l.map (fun _ => fill)).length with hk | hk
  · rw [List.getD_eq_getElem _ _ hk]
    simp
  · exact List.getD_eq_default _ _ hk

/-- C7: `_df_col_check` adds each required column missing from the table
populated with the fill value, reorders so the result's header equals the
required column list exactly and in order (existing columns keeping their
cells), and is idempotent — reapplying it to the result with the same
required columns and fill changes nothing and does not persist. -/
theorem C7_reconcile {α : Type} (t : Table α) (colnms : List String) (fill : α)
    (hnd : colnms.Nodup) (hlen : ∀ r ∈ t.rows, r.length = t.cols.length) :
    ((_df_col_check t colnms fill).1.cols = colnms) ∧
    (∀ i c, colnms.get? i = some c → c ∉ t.cols →
      ∀ r ∈ (_df_col_check t colnms fill).1.rows, r.get? i = some fill) ∧
    (∀ j r, t.rows.get? j = some r →
      ∃ r2, (_df_col_check t colnms fill).1.rows.get? j = some r2 ∧
        ∀ i c, colnms.get? i = some c → c ∈ t.cols →
          r2.get? i = some (r.getD (t.cols.indexOf c) fill)) ∧
    (_df_col_check (_df_col_check t colnms fill).1 colnms fill =
      ((_df_col_check t colnms fill).1, false)) := by
  by_cases hc : t.cols = colnms
  · refine ⟨by simp [_df_col_check, hc], ?_, ?_, by simp [_df_col_check, hc]⟩
    · intro i c hic hcn r hr
      exact absurd (hc ▸ List.get?_mem hic) hcn
    · intro j r hjr
      refine ⟨r, by simpa [_df_col_check, hc] using hjr, ?_⟩
      intro i c hic hcm
      have hi : i < colnms.length := List.get?_eq_some.mp hic |>.1
      have hgc : colnms[i] = c := by
        have := List.get?_eq_some.mp hic
        simpa [List.get?_eq_getElem?, List.getElem?_eq_getElem hi] using hic
      have hidx : t.cols.indexOf c = i := by
        rw [hc]
        rw [← hgc]
        exact List.indexOf_getElem hnd i hi
      have hrl : r.length = t.cols.length := hlen r (List.get?_mem hjr)
      have hi2 : i < r.length := by rw [hrl, hc]; exact hi
      rw [hidx, List.getD_eq_getElem _ _ hi2, List.get?_eq_getElem?,
        List.getElem?_eq_getElem hi2]
  · have hout : (_df_col_check t colnms fill).1 =
        selectCols
          ((colnms.filter (fun c => !(t.cols.contains c))).foldl
            (fun acc c => addCol acc c fill) t)
          colnms fill := by
      simp [_df_col_check, hc]
    have hpersist : (_df_col_check t colnms fill).2 = true := by
      simp [_df_col_check, hc]
    set missing := colnms.filter (fun c => !(t.cols.contains c)) with hmiss
    have hcols : (_df_col_check t colnms fill).1.cols = colnms := by
      rw [hout]; rfl
    refine ⟨hcols, ?_, ?_, ?_⟩
    · intro i c hic hcn r hr
      rw [hout] at hr
      simp only [selectCols, addColFold_cols, addColFold_rows, List.mem_map] at hr
      obtain ⟨r0, hr0, rfl⟩ := hr
      obtain ⟨rr, hrr, rfl⟩ := hr0
      have hcm : c ∈ missing := by
        rw [hmiss]
        refine List.mem_filter.mpr ⟨List.get?_mem hic, ?_⟩
        simp [hcn]
      rw [List.get?_map, hic]
      simp only [Option.map_some']
      congr 1
      rw [List.indexOf_append_of_not_mem hcn]
      have hrl : rr.length = t.cols.length := hlen rr hrr
      rw [List.getD_append_right _ _ _ _ (by omega)]
      have : t.cols.length + missing.indexOf c - rr.length = missing.indexOf c := by omega
      rw [this]
      exact getD_constMap missing fill _
    · intro j r hjr
      rw [hout]
      simp only [selectCols, addColFold_cols, addColFold_rows, List.map_map]
      refine ⟨_, by rw [List.get?_map, hjr]; rfl, ?_⟩
      intro i c hic hcm
      simp only [Function.comp]
      rw [List.get?_map, hic]
      simp only [Option.map_some']
      congr 1
      rw [List.indexOf_append_of_mem hcm]
      have hrl : r.length = t.cols.length := hlen r (List.get?_mem hjr)
      have hlt : t.cols.indexOf c < r.length := by
        rw [hrl]; exact List.indexOf_lt_length.mpr hcm
      exact List.getD_append _ _ _ _ hlt
    · rw [_df_col_check, if_pos hcols]

/-- C7 witness: the reconciler on a table with columns `[A, X]` against the
required list `[A, B, C]` — the result's header is exactly `[A, B, C]`, the
new `B` column is filled with the default, and a second application is the
identity and does not persist. -/
theorem C7_reconcile_witness :
    (_df_col_check (⟨["A", "X"], [[1, 2], [3, 4]]⟩ : Table Int) ["A", "B", "C"] 0).1.cols =
      ["A", "B", "C"] ∧
    _df_col_check (_df_col_check (⟨["A", "X"], [[1, 2], [3, 4]]⟩ : Table Int) ["A", "B", "C"] 0).1
        ["A", "B", "C"] 0 =
      ((_df_col_check (⟨["A", "X"], [[1, 2], [3, 4]]⟩ : Table Int) ["A", "B", "C"] 0).1, false) :=
  ⟨(C7_reconcile (⟨["A", "X"], [[1, 2], [3, 4]]⟩ : Table Int) ["A", "B", "C"] 0
      (by decide) (by decide)).1,
   (C7_reconcile (⟨["A", "X"], [[1, 2], [3, 4]]⟩ : Table Int) ["A", "B", "C"] 0
      (by decide) (by decide)).2.2.2⟩

/-- Every `ValueError` raised by `Rowchecker` names the field-log file and
carries the full offending row (`_ErrorMessage`, lines 518-522). -/
theorem Rowchecker_error_names (h : HashFn) (now pastDate : Int) (fname : String)
    (flrow : FieldRow) (prow : List (String × Bool)) (pInfo : ProjInfo) (hist : Bool)
    (e : RowError)
    (he : Rowchecker h now fname flrow prow pInfo hist pastDate = Except.error e) :
    e.flog = fname ∧ e.row = flrow := by
  simp only [Rowchecker] at he
  by_cases h1 : flrow.Year.typeIsInt = false
  · rw [if_pos h1] at he; cases he; exact ⟨rfl, rfl⟩
  rw [if_neg h1] at he
  by_cases h2 : flrow.Month.typeIsInt = false
  · rw [if_pos h2] at he; cases he; exact ⟨rfl, rfl⟩
  rw [if_neg h2] at he
  by_cases h3 : flrow.Day.typeIsInt = false
  · rw [if_pos h3] at he; cases he; exact ⟨rfl, rfl⟩
  rw [if_neg h3] at he
  by_cases h4 : flrow.Runs.typeIsInt = false
  · rw [if_pos h4] at he; cases he; exact ⟨rfl, rfl⟩
  rw [if_neg h4] at he
  by_cases h5 : flrow.Technician.typeIsStr = false
  · rw [if_pos h5] at he; cases he; exact ⟨rfl, rfl⟩
  rw [if_neg h5] at he
  by_cases h6 : flrow.Sensor.typeIsStr = false
  · rw [if_pos h6] at he; cases he; exact ⟨rfl, rfl⟩
  rw [if_neg h6] at he
  by_cases h7 : flrow.Site.typeIsStr = false
  · rw [if_pos h7] at he; cases he; exact ⟨rfl, rfl⟩
  rw [if_neg h7] at he
  by_cases h8 : validDate flrow.Year.toInt flrow.Month.toInt flrow.Day.toInt = false
  · rw [if_pos h8] at he; cases he; exact ⟨rfl, rfl⟩
  rw [if_neg h8] at he
  by_cases h9 : (checksumState h flrow).1.isSome = true ∧
      epochSecs flrow.Year.toInt flrow.Month.toInt flrow.Day.toInt > now + 43200
  · rw [if_pos h9] at he; cases he; exact ⟨rfl, rfl⟩
  rw [if_neg h9] at he
  by_cases h10 : (checksumState h flrow).1.isSome = true ∧
      ¬ epochSecs flrow.Year.toInt flrow.Month.toInt flrow.Day.toInt > now + 43200 ∧
      epochSecs flrow.Year.toInt flrow.Month.toInt flrow.Day.toInt < pastDate ∧ hist = false
  · rw [if_pos h10] at he; cases he; exact ⟨rfl, rfl⟩
  rw [if_neg h10] at he
  by_cases h11 : validSensor prow flrow.Sensor = false
  · rw [if_pos h11] at he; cases he; exact ⟨rfl, rfl⟩
  rw [if_neg h11] at he
  by_cases h12 : flrow.Runs.toInt < 1
  · rw [if_pos h12] at he; cases he; exact ⟨rfl, rfl⟩
  rw [if_neg h12] at he
  by_cases h13 : ((pInfo.sites.map Site.name).any fun nm => flrow.Site.pyEqStr nm) = false
  · rw [if_pos h13] at he; cases he; exact ⟨rfl, rfl⟩
  rw [if_neg h13] at he
  rcases hm : findSiteYear flrow.Site flrow.Year pInfo.sites with _ | s
  · rw [hm] at he; cases he; exact ⟨rfl, rfl⟩
  · rw [hm] at he; cases he

/-- The row loop over an appended list runs the prefix first and continues
with its result. -/
theorem rowLoop_append (h : HashFn) (now : Int) (args : Args) (fname : String)
    (prow : List (String × Bool)) (pInfo : ProjInfo) (pastDate : Int)
    (project : String) (node : NodeCfg) (xs ys : List (Nat × FieldRow))
    (df : List FieldRow) (st : State) :
    rowLoop h now args fname prow pInfo pastDate project node df st (xs ++ ys) =
      (match rowLoop h now args fname prow pInfo pastDate project node df st xs with
       | Except.error e => Except.error e
       | Except.ok p =>
         rowLoop h now args fname prow pInfo pastDate project node p.1 p.2 ys) := by
  induction xs generalizing df st with
  | nil => simp [rowLoop]
  | cons x rest ih =>
    obtain ⟨idx, frow⟩ := x
    simp only [List.cons_append, rowLoop]
    rcases Rowchecker h now fname frow prow pInfo args.historical pastDate with e | r
    · rfl
    · dsimp only
      rcases Sitebuilder args fname df idx frow r.check r.site project node st with m | p
      · rfl
      · obtain ⟨df2, st2⟩ := p
        exact ih df2 st2

/-- C2: for every field-log row on which a validation check fails, the run
aborts with a `ValueError` naming the field-log file, the offending row and
its cause, with the on-disk state at the abort exactly the state after the
preceding rows: no folder was created for the failing row, the ledger was
not rewritten for it, and the remaining rows are never processed (the result
does not depend on `rest`).  The abort propagates uncaught through the
project loop, the node loop and `main` — the conclusions are independent of
the remaining projects (`tblRest`) and nodes (`moreNodes`) — so the whole
run aborts in that same state.  (The propagation conjuncts carry the
`pastDate = now - 14 days` hypothesis because that is the default the single
call site passes, line 480.) -/
theorem C2_run_aborts_on_row_error (h : HashFn) (now pastDate : Int) (args : Args)
    (env : Env) (fname project : String) (node : NodeCfg)
    (prow : List (String × Bool)) (pInfo : ProjInfo)
    (stN st0 st1 stPre : State) (df df1 : List FieldRow)
    (xs rest : List (Nat × FieldRow)) (idx : Nat) (frow : FieldRow) (e : RowError)
    (tblRest : List (String × List (String × Bool))) (moreNodes : List NodeCfg)
    (hnc : NodeChecker env args node stN = ((project, prow) :: tblRest, st0))
    (hpb : projBuilder env args project node st0 =
      Except.ok (df, st1, fname, pInfo))
    (hdf : df.enum = xs ++ (idx, frow) :: rest)
    (henv : env.nodes = node :: moreNodes)
    (hpre : rowLoop h now args fname prow pInfo pastDate project node df st1 xs =
      Except.ok (df1, stPre))
    (herr : Rowchecker h now fname frow prow pInfo args.historical pastDate =
      Except.error e) :
    rowLoop h now args fname prow pInfo pastDate project node df st1 df.enum =
      Except.error (Err.rowErr e, stPre) ∧
    (pastDate = now - 14 * 86400 →
      projLoop h now env args node st0 ((project, prow) :: tblRest) =
        Except.error (Err.rowErr e, stPre)) ∧
    (pastDate = now - 14 * 86400 →
      nodeLoop h now env args stN (node :: moreNodes) =
        Except.error (Err.rowErr e, stPre)) ∧
    (pastDate = now - 14 * 86400 →
      mainRun h now args env stN = Except.error (Err.rowErr e, stPre)) ∧
    e.flog = fname ∧ e.row = frow := by
  have h1 : rowLoop h now args fname prow pInfo pastDate project node df st1 df.enum =
      Except.error (Err.rowErr e, stPre) := by
    rw [hdf, rowLoop_append, hpre]
    dsimp only
    simp only [rowLoop]
    rw [herr]
  have hdfne : df.isEmpty = false := by
    cases df with
    | nil =>
      rw [show List.enum ([] : List FieldRow) = [] from rfl] at hdf
      obtain ⟨-, h2⟩ := List.append_eq_nil.mp hdf.symm
      exact absurd h2 (List.cons_ne_nil _ _)
    | cons a l => rfl
  have h2 : pastDate = now - 14 * 86400 →
      projLoop h now env args node st0 ((project, prow) :: tblRest) =
        Except.error (Err.rowErr e, stPre) := by
    intro hpd
    subst hpd
    simp only [projLoop]
    rw [hpb]
    dsimp only
    simp only [hdfne, Bool.false_eq_true, if_false]
    rw [h1]
  have h3 : pastDate = now - 14 * 86400 →
      nodeLoop h now env args stN (node :: moreNodes) =
        Except.error (Err.rowErr e, stPre) := by
    intro hpd
    have h2b := h2 hpd
    simp only [nodeLoop]
    rw [hnc]
    dsimp only [List.isEmpty]
    rw [h2b]
    simp
  have h4 : pastDate = now - 14 * 86400 →
      mainRun h now args env stN = Except.error (Err.rowErr e, stPre) := by
    intro hpd
    unfold mainRun
    rw [henv]
    exact h3 hpd
  exact ⟨h1, h2, h3, h4, Rowchecker_error_names h now pastDate fname frow prow pInfo
    args.historical e herr⟩

/-- C2 witness: on the one-node environment whose single ledger row has a
boolean `Year`, the whole run aborts with the `TypeMismatch` error carrying
the file name and the row, in exactly the post-`projBuilder` state — no
folder for the row, no ledger rewrite. -/
theorem C2_run_aborts_witness :
    mainRun (hashConst 42) 0 args4 envC2 initState =
      Except.error
        (Err.rowErr ⟨"./N/P/FieldLog.csv", rowBadYear, Cause.TypeMismatch ("Year")⟩,
          stPreC2) :=
  (C2_run_aborts_on_row_error (hashConst 42) 0 (0 - 14 * 86400) args4 envC2
    ("./N/P/FieldLog.csv") ("P") nodeX prow0 (pi0 2024) initState stNodeC2 stPreC2 stPreC2
    [rowBadYear] [rowBadYear] [] [] 0 rowBadYear
    ⟨"./N/P/FieldLog.csv", rowBadYear, Cause.TypeMismatch ("Year")⟩ [] []
    rfl rfl rfl rfl rfl rfl).2.2.2.1 rfl

/-- `pymkdir` touches only the directory list. -/
theorem pymkdir_files (st : State) (p : String) : (pymkdir st p).files = st.files := by
  unfold pymkdir; split <;> rfl

/-- `pymkdir` leaves the on-disk CSV files unchanged. -/
theorem pymkdir_ledgers (st : State) (p : String) : (pymkdir st p).ledgers = st.ledgers := by
  unfold pymkdir; split <;> rfl

/-- `pymkdir` leaves the git index unchanged. -/
theorem pymkdir_gitStaged (st : State) (p : String) :
    (pymkdir st p).gitStaged = st.gitStaged := by
  unfold pymkdir; split <;> rfl

/-- `pymkdir` leaves the `gitmod` flag unchanged. -/
theorem pymkdir_gitmod (st : State) (p : String) : (pymkdir st p).gitmod = st.gitmod := by
  unfold pymkdir; split <;> rfl

/-- `pymkdir` never removes a directory. -/
theorem pymkdir_dirs_mono (st : State) (p q : String) (hq : q ∈ st.dirs) :
    q ∈ (pymkdir st p).dirs := by
  unfold pymkdir; split
  · exact hq
  · exact List.mem_append_left _ hq

/-- After `pymkdir` the requested directory exists. -/
theorem pymkdir_dirs_self (st : State) (p : String) : p ∈ (pymkdir st p).dirs := by
  unfold pymkdir; split
  · assumption
  · exact List.mem_append_right _ (List.mem_singleton.mpr rfl)

/-- `touchFile` touches only the plain-file list. -/
theorem touchFile_ledgers (st : State) (p : String) :
    (touchFile st p).ledgers = st.ledgers := by
  unfold touchFile; split <;> rfl

/-- `touchFile` leaves the directories unchanged. -/
theorem touchFile_dirs (st : State) (p : String) : (touchFile st p).dirs = st.dirs := by
  unfold touchFile; split <;> rfl

/-- `touchFile` leaves the git index unchanged. -/
theorem touchFile_gitStaged (st : State) (p : String) :
    (touchFile st p).gitStaged = st.gitStaged := by
  unfold touchFile; split <;> rfl

/-- `touchFile` leaves the `gitmod` flag unchanged. -/
theorem touchFile_gitmod (st : State) (p : String) : (touchFile st p).gitmod = st.gitmod := by
  unfold touchFile; split <;> rfl

/-- After `touchFile` the requested file exists. -/
theorem touchFile_files_self (st : State) (p : String) : p ∈ (touchFile st p).files := by
  unfold touchFile; split
  · assumption
  · exact List.mem_append_right _ (List.mem_singleton.mpr rfl)

/-- A state projection preserved by every step of a fold is preserved by the
whole fold. -/
theorem foldl_state_eq {β γ : Type} (f : State → β → State) (proj : State → γ)
    (hf : ∀ st b, proj (f st b) = proj st) :
    ∀ (l : List β) (st : State), proj (l.foldl f st) = proj st := by
  intro l
  induction l with
  | nil => intro st; rfl
  | cons b bs ih => intro st; rw [List.foldl_cons, ih, hf]

/-- Directory membership is preserved by a fold whose step only adds
directories. -/
theorem foldl_dirs_mono {β : Type} (f : State → β → State)
    (hf : ∀ st b q, q ∈ st.dirs → q ∈ (f st b).dirs) :
    ∀ (l : List β) (st : State) (q : String), q ∈ st.dirs → q ∈ (l.foldl f st).dirs := by
  intro l
  induction l with
  | nil => intro st q hq; exact hq
  | cons b bs ih => intro st q hq; rw [List.foldl_cons]; exact ih _ _ (hf _ _ _ hq)

/-- Folding `pymkdir` over a list creates the directory of every element. -/
theorem foldl_pymkdir_mem {β : Type} (g : β → String) (l : List β) (b : β) (hb : b ∈ l)
    (st : State) : g b ∈ (l.foldl (fun acc x => pymkdir acc (g x)) st).dirs := by
  induction l generalizing st with
  | nil => cases hb
  | cons c cs ih =>
    rw [List.foldl_cons]
    rcases List.mem_cons.mp hb with rfl | hb2
    · exact foldl_dirs_mono _ (fun s x q hq => pymkdir_dirs_mono s (g x) q hq) cs _ _
        (pymkdir_dirs_self st (g b))
    · exact ih hb2 _

/-- The run/tier double fold of `Sitebuilder` creates every
`run_{NN}/{tier}` directory. -/
theorem runFold_tier_mem (folder : String) (n : Nat) (st : State) (k : Nat) (hk : k < n)
    (t : String) (ht : t ∈ tierFolders) :
    (folder ++ "/run_" ++ fmt02d (k : Int) ++ "/" ++ t) ∈
      ((List.range n).foldl
        (fun acc (runNo : Nat) => tierFolders.foldl
          (fun acc2 fldr => pymkdir acc2 (folder ++ "/run_" ++ fmt02d (runNo : Int) ++ "/" ++ fldr)) acc)
        st).dirs := by
  induction n generalizing st with
  | zero => omega
  | succ n ih =>
    rw [List.range_succ, List.foldl_append]
    rcases Nat.lt_or_ge k n with hkn | hkn
    · refine foldl_dirs_mono _ ?_ [n] _ _ (ih st hkn)
      intro s b q hq
      exact foldl_dirs_mono _ (fun s2 x q2 hq2 => pymkdir_dirs_mono s2 _ q2 hq2)
        tierFolders s q hq
    · have hk2 : k = n := by omega
      subst hk2
      simp only [List.foldl_cons, List.foldl_nil]
      exact foldl_pymkdir_mem (fun fldr => folder ++ "/run_" ++ fmt02d k ++ "/" ++ fldr)
        tierFolders t ht _

/-- C9: for a row whose checksum already matches (`Rowchecker` returned
`None` for the checksum), the builder loop still invokes `Sitebuilder` —
the sensor directory and every `run_{NN}/{tier}` directory are re-ensured
(create-if-absent) and the notes file is touched again exactly when
`MakeNotesFile` is set — while the ledger rewrite and the git staging are
skipped: the on-disk CSV files, the git index and the `gitmod` flag are
unchanged, and the in-memory field log is returned as-is. -/
theorem C9_matched_row_materializes (h : HashFn) (now pastDate : Int) (args : Args)
    (fname project : String) (node : NodeCfg) (prow : List (String × Bool))
    (pInfo : ProjInfo) (df : List FieldRow) (st : State) (idx : Nat) (frow : FieldRow)
    (site : Site) (cf : Bool) (sn : String)
    (hrc : Rowchecker h now fname frow prow pInfo args.historical pastDate =
      Except.ok ⟨none, site, cf⟩)
    (hsn : _sitenamemaker site = Except.ok sn) :
    ∃ st2,
      rowLoop h now args fname prow pInfo pastDate project node df st [(idx, frow)] =
        Except.ok (df, st2) ∧
      st2.ledgers = st.ledgers ∧
      st2.gitStaged = st.gitStaged ∧
      st2.gitmod = st.gitmod ∧
      ("./" ++ node.name ++ "/" ++ project ++ "/" ++ sn ++ "/" ++ frow.Sensor.toStr) ∈ st2.dirs ∧
      (∀ k : Nat, k < frow.Runs.toInt.toNat → ∀ t ∈ tierFolders,
        ("./" ++ node.name ++ "/" ++ project ++ "/" ++ sn ++ "/" ++ frow.Sensor.toStr ++ "/" ++
            (fmt02d frow.Year.toInt ++ fmt02d frow.Month.toInt ++ fmt02d frow.Day.toInt) ++
            "/run_" ++ fmt02d (k : Int) ++ "/" ++ t) ∈ st2.dirs) ∧
      (frow.MakeNotesFile = true →
        ("./" ++ node.name ++ "/" ++ project ++ "/" ++ sn ++ "/" ++ frow.Sensor.toStr ++ "/" ++
            (fmt02d frow.Year.toInt ++ fmt02d frow.Month.toInt ++ fmt02d frow.Day.toInt) ++
            "/FieldNotes.txt") ∈ st2.files) ∧
      (frow.MakeNotesFile = false → st2.files = st.files) := by
  set sensorDir := "./" ++ node.name ++ "/" ++ project ++ "/" ++ sn ++ "/" ++ frow.Sensor.toStr with hsd
  set dname := fmt02d frow.Year.toInt ++ fmt02d frow.Month.toInt ++ fmt02d frow.Day.toInt with hdn
  set folder := sensorDir ++ "/" ++ dname with hfo
  set st1 := pymkdir st sensorDir with hst1
  set stR := (List.range frow.Runs.toInt.toNat).foldl
    (fun acc (runNo : Nat) => tierFolders.foldl
      (fun acc2 fldr => pymkdir acc2 (folder ++ "/run_" ++ fmt02d (runNo : Int) ++ "/" ++ fldr)) acc)
    st1 with hstR
  set st3 := (if frow.MakeNotesFile then touchFile stR (folder ++ "/FieldNotes.txt") else stR)
    with hst3
  have hsb : Sitebuilder args fname df idx frow none site project node st =
      Except.ok (df, st3) := by
    unfold Sitebuilder
    rw [hsn]
  have hloop : rowLoop h now args fname prow pInfo pastDate project node df st
      [(idx, frow)] = Except.ok (df, st3) := by
    simp only [rowLoop]
    rw [hrc]
    dsimp only
    rw [hsb]
  have hRledg : stR.ledgers = st.ledgers := by
    rw [hstR, foldl_state_eq _ State.ledgers
      (fun s b => foldl_state_eq _ State.ledgers (fun s2 b2 => pymkdir_ledgers s2 _) _ s),
      hst1, pymkdir_ledgers]
  have hRgitS : stR.gitStaged = st.gitStaged := by
    rw [hstR, foldl_state_eq _ State.gitStaged
      (fun s b => foldl_state_eq _ State.gitStaged (fun s2 b2 => pymkdir_gitStaged s2 _) _ s),
      hst1, pymkdir_gitStaged]
  have hRgitM : stR.gitmod = st.gitmod := by
    rw [hstR, foldl_state_eq _ State.gitmod
      (fun s b => foldl_state_eq _ State.gitmod (fun s2 b2 => pymkdir_gitmod s2 _) _ s),
      hst1, pymkdir_gitmod]
  have hRfiles : stR.files = st.files := by
    rw [hstR, foldl_state_eq _ State.files
      (fun s b => foldl_state_eq _ State.files (fun s2 b2 => pymkdir_files s2 _) _ s),
      hst1, pymkdir_files]
  have h3ledg : st3.ledgers = st.ledgers := by
    rw [hst3]; split <;> simp [touchFile_ledgers, hRledg]
  have h3gitS : st3.gitStaged = st.gitStaged := by
    rw [hst3]; split <;> simp [touchFile_gitStaged, hRgitS]
  have h3gitM : st3.gitmod = st.gitmod := by
    rw [hst3]; split <;> simp [touchFile_gitmod, hRgitM]
  have h3dirs : st3.dirs = stR.dirs := by
    rw [hst3]; split <;> simp [touchFile_dirs]
  refine ⟨st3, hloop, h3ledg, h3gitS, h3gitM, ?_, ?_, ?_, ?_⟩
  · rw [h3dirs, hstR]
    exact foldl_dirs_mono _
      (fun s b q hq => foldl_dirs_mono _ (fun s2 x q2 hq2 => pymkdir_dirs_mono s2 _ q2 hq2)
        tierFolders s q hq)
      _ _ _ (pymkdir_dirs_self st sensorDir)
  · intro k hk t ht
    rw [h3dirs, hstR]
    exact runFold_tier_mem folder _ st1 k hk t ht
  · intro hmk
    rw [hst3, if_pos hmk]
    exact touchFile_files_self stR _
  · intro hmk
    rw [hst3, if_neg (by simp [hmk]), hRfiles]

/-- C9 witness: the matched test row (stored checksum equal to the
recomputed 42) still drives `Sitebuilder`, with the ledger, git index and
flag untouched. -/
theorem C9_matched_row_materializes_witness :
    ∃ st2,
      rowLoop (hashConst 42) 0 args4 ("f") prow0 (pi0 2024) 0 ("P") nodeX
          [matchedBase (hashConst 42) 2024 6 1] initState
          [(0, matchedBase (hashConst 42) 2024 6 1)] =
        Except.ok ([matchedBase (hashConst 42) 2024 6 1], st2) ∧
      st2.ledgers = initState.ledgers ∧
      st2.gitStaged = initState.gitStaged ∧
      st2.gitmod = initState.gitmod ∧
      ("./" ++ nodeX.name ++ "/" ++ "P" ++ "/" ++ "2024Main" ++ "/" ++
        (matchedBase (hashConst 42) 2024 6 1).Sensor.toStr) ∈ st2.dirs ∧
      (∀ k : Nat, k < (matchedBase (hashConst 42) 2024 6 1).Runs.toInt.toNat →
        ∀ t ∈ tierFolders,
        ("./" ++ nodeX.name ++ "/" ++ "P" ++ "/" ++ "2024Main" ++ "/" ++
            (matchedBase (hashConst 42) 2024 6 1).Sensor.toStr ++ "/" ++
            (fmt02d (matchedBase (hashConst 42) 2024 6 1).Year.toInt ++
              fmt02d (matchedBase (hashConst 42) 2024 6 1).Month.toInt ++
              fmt02d (matchedBase (hashConst 42) 2024 6 1).Day.toInt) ++
            "/run_" ++ fmt02d (k : Int) ++ "/" ++ t) ∈ st2.dirs) ∧
      ((matchedBase (hashConst 42) 2024 6 1).MakeNotesFile = true →
        ("./" ++ nodeX.name ++ "/" ++ "P" ++ "/" ++ "2024Main" ++ "/" ++
            (matchedBase (hashConst 42) 2024 6 1).Sensor.toStr ++ "/" ++
            (fmt02d (matchedBase (hashConst 42) 2024 6 1).Year.toInt ++
              fmt02d (matchedBase (hashConst 42) 2024 6 1).Month.toInt ++
              fmt02d (matchedBase (hashConst 42) 2024 6 1).Day.toInt) ++
            "/FieldNotes.txt") ∈ st2.files) ∧
      ((matchedBase (hashConst 42) 2024 6 1).MakeNotesFile = false →
        st2.files = initState.files) :=
  C9_matched_row_materializes (hashConst 42) 0 0 args4 ("f") ("P") nodeX prow0 (pi0 2024)
    [matchedBase (hashConst 42) 2024 6 1] initState 0 (matchedBase (hashConst 42) 2024 6 1)
    (siteOf 2024) false ("2024Main") rfl rfl

/-- C4 counterexample: the claim names the day folder `240601` (also in the
spec's scenario path `Narrabri/P1/2024Main_F/M3M/240601/...`), but Python's
`f"{2024:02d}"` pads to a minimum width of 2 and does not truncate, so the
day folder for 2024-06-01 is `20240601`.  On the scenario environment the
run creates `.../M3M/20240601/run_00/Tier0_raw` and never creates
`.../M3M/240601/run_00/Tier0_raw`. -/
theorem C4_counterexample :
    fmt02d 2024 = "2024" ∧
    Except.map (fun st => st.dirs.contains ("./Narrabri/P1/2024Main_F/M3M/240601/run_00/Tier0_raw"))
        (mainRun (hashConst 1) (epochSecs 2024 6 1) args4 env4 initState) = Except.ok false ∧
    Except.map (fun st => st.dirs.contains ("./Narrabri/P1/2024Main_F/M3M/20240601/run_00/Tier0_raw"))
        (mainRun (hashConst 1) (epochSecs 2024 6 1) args4 env4 initState) = Except.ok true :=
  ⟨rfl, rfl, rfl⟩

/-- C4 amended: on the scenario configuration (node Narrabri, project P1,
site Main/2024 uncontrolled, row {2024,6,1,M3M,Tech1,2,Main,false,NaN}),
run at a `now` for which 2024-06-01 is within the temporal bounds, the
builder creates exactly the node folder, the project `Documentation`/`Code`
folders, the site folder `2024Main_F` with its `Documentation`/`Code`, the
sensor folder `M3M`, and `20240601/run_00/{Tier0_raw,Tier1_proc,Tier2_traits}`
and `run_01` likewise (the day folder carrying the full 4-digit year), writes
the recomputed checksum into the ledger row (nonzero whenever the row's hash
is not 0 mod 10^8), creates no notes file, and performs no other write. -/
theorem C4_amended (h : HashFn) (now : Int)
    (hf : epochSecs 2024 6 1 ≤ now + 43200)
    (hp : now - 14 * 86400 ≤ epochSecs 2024 6 1)
    (hnz : computeCheck h row4 ≠ 0) :
    mainRun h now args4 env4 initState = Except.ok (stPost4 (computeCheck h row4)) ∧
    computeCheck h row4 ≠ 0 := by
  refine ⟨?_, hnz⟩
  have hvd : validDate 2024 6 1 = true := by decide
  have h1 : ¬ (epochSecs 2024 6 1 > now + 43200) := by omega
  have h2 : ¬ (epochSecs 2024 6 1 < now - 14 * 86400) := by omega
  have hrc : Rowchecker h now flog4 row4 prow4 pi4 false (now - 14 * 86400) =
      Except.ok ⟨some (computeCheck h row4), site4, false⟩ := by
    unfold Rowchecker
    simp [row4, checksumState, computeCheck, FieldRow.nonChecksum, hvd, h1, h2,
      PyVal.typeIsInt, PyVal.typeIsStr, PyVal.toInt, validSensor, prow4, PyVal.pyEqStr,
      pi4, site4, findSiteYear, PyVal.pyEqInt]
    omega
  have hsb : ∀ v : Nat,
      Sitebuilder args4 flog4 [row4] 0 row4 (some v) site4 ("P1") node4 stPre4 =
        Except.ok ([{ row4 with CheckSum := some v }], stPost4 v) := fun v => rfl
  have henum : List.enum [row4] = [(0, row4)] := rfl
  have hrow : rowLoop h now args4 flog4 prow4 pi4 (now - 14 * 86400) ("P1") node4
      [row4] stPre4 (List.enum [row4]) =
      Except.ok ([{ row4 with CheckSum := some (computeCheck h row4) }],
        stPost4 (computeCheck h row4)) := by
    rw [henum]
    simp only [rowLoop]
    rw [show args4.historical = false from rfl, hrc]
    dsimp only
    rw [hsb (computeCheck h row4)]
  have hnode : NodeChecker env4 args4 node4 initState = ([("P1", prow4)], stNode4) := rfl
  have hproj : projBuilder env4 args4 ("P1") node4 stNode4 =
      Except.ok ([row4], stPre4, flog4, pi4) := rfl
  have hploop : projLoop h now env4 args4 node4 stNode4 [("P1", prow4)] =
      Except.ok (stPost4 (computeCheck h row4)) := by
    simp only [projLoop]
    rw [hproj]
    dsimp only
    rw [hrow]
    simp
  unfold mainRun
  have henv : env4.nodes = [node4] := rfl
  rw [henv]
  simp only [nodeLoop]
  rw [hnode]
  dsimp only
  rw [hploop]
  simp

/-- C4 witness: the amended scenario theorem at the hash returning 1 and
`now` equal to the row's date. -/
theorem C4_amended_witness :
    mainRun (hashConst 1) (epochSecs 2024 6 1) args4 env4 initState =
      Except.ok (stPost4 (computeCheck (hashConst 1) row4)) ∧
    computeCheck (hashConst 1) row4 ≠ 0 :=
  C4_amended (hashConst 1) (epochSecs 2024 6 1) (by omega) (by omega) (by decide)

end ProjectBuilder
